import Mathlib

/-!
Shallow embedding of the Express Todo CRUD service (`app.ts`):
an in-memory list of todos with an incrementing id generator, and the five
HTTP handlers (list, create, get-by-id, update, delete) as explicit
state-passing functions `Store → Resp × Store`.

JavaScript value subtleties that matter here are modelled explicitly:
`Number(...)` of a non-numeric path parameter yields `NaN`, a missing body
field reads as `undefined`, and `===` comparison treats `NaN` as unequal to
everything (itself included).  These are captured by the `JsId` type and its
strict-equality function `jsEq`.
-/

namespace TodoApp

/-- A JavaScript value that can sit in the `id` position: a number
(ids here are integers), `NaN` (result of `Number` on a non-numeric string),
or `undefined` (reading an absent object field). -/
inductive JsId where
  | num : Int → JsId
  | nan : JsId
  | undef : JsId
deriving DecidableEq, Repr

/-- JavaScript strict equality `===` restricted to `JsId` values:
`NaN === x` is always false (even for `x = NaN`); `undefined === undefined`
is true; numbers compare by value; mixed kinds are unequal. -/
def jsEq : JsId → JsId → Bool
  | JsId.num a, JsId.num b => a == b
  | JsId.undef, JsId.undef => true
  | _, _ => false

/-- String interpolation of a `JsId` as in the template literal of the 404
message: integers print in decimal, `NaN` prints as `NaN`, `undefined` as
`undefined`. -/
def jsIdToString : JsId → String
  | JsId.num n => toString n
  | JsId.nan => "NaN"
  | JsId.undef => "undefined"

/-- A stored Todo record (interface `Todo` in `app.ts`).  `title` and
`description` are `Option` because a JSON request body may omit them, and the
handlers copy fields without validation. -/
structure Todo where
  id : JsId
  title : Option String
  description : Option String
deriving DecidableEq, Repr

instance : Inhabited Todo := ⟨{ id := JsId.undef, title := none, description := none }⟩

/-- A parsed JSON request body for create/update: every field may be absent
(`none` models an absent own-property, so object spread skips it and reading
it yields `undefined`). -/
structure TodoBody where
  id : Option JsId
  title : Option String
  description : Option String
deriving DecidableEq, Repr

/-- Reading `item.id` on a body: an absent field reads as `undefined`. -/
def bodyId (b : TodoBody) : JsId := b.id.getD JsId.undef

/-- The mutable server state: the `idGenerator` counter and the `todos` array. -/
structure Store where
  idGenerator : Int
  todos : List Todo
deriving DecidableEq, Repr

/-- Response body: `res.send` of a Todo, of the whole array, or of plain text. -/
inductive RespBody where
  | jsonTodo : Todo → RespBody
  | jsonList : List Todo → RespBody
  | text : String → RespBody
deriving DecidableEq, Repr

/-- An HTTP response: status (200 by default for `res.send`, 404 via
`res.status(404)`) and body. -/
structure Resp where
  status : Nat
  body : RespBody
deriving DecidableEq, Repr

/-- The 404 message `Todo entity not found by id: <id>`. -/
def notFoundMsg (id : JsId) : String :=
  "Todo entity not found by id: " ++ jsIdToString id

/-- `function newId(): number { return idGenerator++; }` -/
def newId (s : Store) : Int × Store :=
  (s.idGenerator, { s with idGenerator := s.idGenerator + 1 })

/-- `app.get('/api/todos')`: send the whole array. -/
def listHandler (s : Store) : Resp × Store :=
  ({ status := 200, body := RespBody.jsonList s.todos }, s)

/-- `app.post('/api/todos')`: `const newTodo = { id: newId(), ...item };
todos.push(newTodo); res.send(newTodo);`.  Object spread: a field present in
`item` overwrites, so a body `id` overwrites the generated one; `newId()` is
evaluated (and the generator incremented) regardless. -/
def postHandler (item : TodoBody) (s : Store) : Resp × Store :=
  let (nid, s1) := newId s
  let newTodo : Todo :=
    { id := item.id.getD (JsId.num nid),
      title := item.title,
      description := item.description }
  ({ status := 200, body := RespBody.jsonTodo newTodo },
   { s1 with todos := s1.todos ++ [newTodo] })

/-- `app.get('/api/todos/:id')`: `todos.find(todo => todo.id === id)`,
send the found todo or a 404 text. -/
def getHandler (id : JsId) (s : Store) : Resp × Store :=
  match s.todos.find? (fun todo => jsEq todo.id id) with
  | some found => ({ status := 200, body := RespBody.jsonTodo found }, s)
  | none => ({ status := 404, body := RespBody.text (notFoundMsg id) }, s)

/-- The shallow merge `{ ...todos[idx], ...item }`: fields present in `item`
overwrite, absent fields keep the prior value. -/
def mergeTodo (old : Todo) (item : TodoBody) : Todo :=
  { id := item.id.getD old.id,
    title := match item.title with | some t => some t | none => old.title,
    description := match item.description with | some d => some d | none => old.description }

/-- `app.put('/api/todos')`: `findIndex(todo => todo.id === item.id)`; on a
hit, replace in place with the shallow merge and send it; on a miss, 404. -/
def putHandler (item : TodoBody) (s : Store) : Resp × Store :=
  match s.todos.findIdx? (fun todo => jsEq todo.id (bodyId item)) with
  | some idx =>
      let updatedTodo := mergeTodo (s.todos.getD idx default) item
      ({ status := 200, body := RespBody.jsonTodo updatedTodo },
       { s with todos := s.todos.set idx updatedTodo })
  | none =>
      ({ status := 404, body := RespBody.text (notFoundMsg (bodyId item)) }, s)

/-- `app.delete('/api/todos/:id')`: `findIndex(todo => todo.id === id)`; on a
hit, `splice(idx, 1)[0]` and send the removed todo; on a miss, 404. -/
def deleteHandler (id : JsId) (s : Store) : Resp × Store :=
  match s.todos.findIdx? (fun todo => jsEq todo.id id) with
  | some idx =>
      let deletedTodo := s.todos.getD idx default
      ({ status := 200, body := RespBody.jsonTodo deletedTodo },
       { s with todos := s.todos.eraseIdx idx })
  | none =>
      ({ status := 404, body := RespBody.text (notFoundMsg id) }, s)

/-- One API operation, for reasoning about sequences of requests. -/
inductive Op where
  | listAll : Op
  | create : TodoBody → Op
  | getById : JsId → Op
  | update : TodoBody → Op
  | deleteById : JsId → Op
deriving DecidableEq, Repr

/-- Dispatch one operation to its handler. -/
def step : Op → Store → Resp × Store
  | Op.listAll, s => listHandler s
  | Op.create b, s => postHandler b s
  | Op.getById i, s => getHandler i s
  | Op.update b, s => putHandler b s
  | Op.deleteById i, s => deleteHandler i s

/-- Run a sequence of operations, keeping only the final state. -/
def runOps (ops : List Op) (s : Store) : Store :=
  ops.foldl (fun st op => (step op st).2) s

/-- The seeded initial state: `let idGenerator = 1` and four seed todos each
created with `idGenerator++`, so they get ids 1–4 and the generator is left
at 5. -/
def initialStore : Store :=
  { idGenerator := 5,
    todos :=
      [ { id := JsId.num 1, title := some "Learn TypeScript", description := none },
        { id := JsId.num 2, title := some "Learn Angular", description := none },
        { id := JsId.num 3, title := some "Learn NodeJs", description := none },
        { id := JsId.num 4, title := some "Learn Express", description := none } ] }

/-- `true` exactly on numeric ids. -/
def isNum : JsId → Bool
  | JsId.num _ => true
  | _ => false

/-- Concrete draft without an id: `{"title":"Learn Rust"}`. -/
def draftRust : TodoBody := { id := none, title := some "Learn Rust", description := none }

/-- Concrete body that smuggles in the existing id 1. -/
def dupBody : TodoBody := { id := some (JsId.num 1), title := some "duplicate", description := none }

/-- The reachable state after POSTing `dupBody` to the seeded store: it holds
two todos with id 1. -/
def dupStore : Store := (postHandler dupBody initialStore).2

/-- Concrete update body targeting the existing id 2. -/
def itemUpd : TodoBody := { id := some (JsId.num 2), title := some "Learn Vue", description := none }

/-- Concrete update body targeting the absent id 99. -/
def itemMissing : TodoBody := { id := some (JsId.num 99), title := some "nothing", description := none }

/-- Concrete update body targeting the absent id 42. -/
def item42 : TodoBody := { id := some (JsId.num 42), title := none, description := none }

/-- Concrete update body with no id field at all. -/
def draftNoId : TodoBody := { id := none, title := some "X", description := none }

/-- Concrete draft A. -/
def draftA : TodoBody := { id := none, title := some "A", description := none }

/-- Concrete draft B. -/
def draftB : TodoBody := { id := none, title := some "B", description := none }

/-! ## Helper lemmas -/

/-- `NaN === x` is false for every `x`; in particular a NaN id matches no
stored todo. -/
theorem jsEq_nan_right (x : JsId) : jsEq x JsId.nan = false := by
  cases x <;> rfl

/-- A numeric id is never strictly-equal to `undefined`. -/
theorem jsEq_undef_right_of_isNum (x : JsId) (h : isNum x = true) :
    jsEq x JsId.undef = false := by
  cases x <;> simp_all [isNum, jsEq]

/-- The element sitting at a successful `findIdx?` position satisfies the
predicate. -/
theorem findIdx?_getD {α : Type} [Inhabited α] {p : α → Bool} {l : List α} {idx : Nat}
    (h : l.findIdx? p = some idx) : p (l.getD idx default) = true := by
  obtain ⟨hlt, hp, -⟩ := List.findIdx?_eq_some_iff_getElem.mp h
  rw [List.getD_eq_getElem?_getD, List.getElem?_eq_getElem hlt]
  simpa using hp

/-- If a list holds at most one element satisfying `p` and `findIdx?` found
one at `idx`, then after erasing index `idx` no element satisfying `p`
remains. -/
theorem find_eraseIdx_none {α : Type} (p : α → Bool) :
    ∀ (l : List α) (idx : Nat), l.findIdx? p = some idx → l.countP p ≤ 1 →
      (l.eraseIdx idx).find? p = none := by
  intro l
  induction l with
  | nil => intro idx h _; simp at h
  | cons a l ih =>
    intro idx h hc
    rw [List.findIdx?_cons] at h
    by_cases hpa : p a = true
    · rw [if_pos hpa] at h
      injection h with h
      subst h
      rw [List.eraseIdx_cons_zero, List.find?_eq_none]
      intro x hx
      have h0 : l.countP p = 0 := by
        rw [List.countP_cons, if_pos hpa] at hc
        omega
      exact (List.countP_eq_zero.mp h0) x hx
    · rw [if_neg hpa] at h
      rw [List.findIdx?_succ] at h
      obtain ⟨j, hj, rfl⟩ := Option.map_eq_some'.mp h
      rw [List.eraseIdx_cons_succ, List.find?_cons_of_neg _ hpa]
      have hc' : l.countP p ≤ 1 := by
        rw [List.countP_cons, if_neg hpa] at hc
        omega
      exact ih j hj hc'

/-- The generator never decreases under any single operation. -/
theorem generator_mono_step (op : Op) (s : Store) :
    s.idGenerator ≤ ((step op s).2).idGenerator := by
  cases op with
  | listAll => exact le_refl _
  | create b =>
      have h : ((step (Op.create b) s).2).idGenerator = s.idGenerator + 1 := rfl
      omega
  | getById i =>
      unfold step getHandler
      cases h : s.todos.find? (fun todo => jsEq todo.id i) <;> simp [h]
  | update b =>
      unfold step putHandler
      cases h : s.todos.findIdx? (fun todo => jsEq todo.id (bodyId b)) <;> simp [h]
  | deleteById i =>
      unfold step deleteHandler
      cases h : s.todos.findIdx? (fun todo => jsEq todo.id i) <;> simp [h]

/-- The generator never decreases across any sequence of operations. -/
theorem generator_mono_run (ops : List Op) : ∀ s : Store,
    s.idGenerator ≤ (runOps ops s).idGenerator := by
  induction ops with
  | nil => intro s; exact le_refl _
  | cons op ops ih =>
      intro s
      exact le_trans (generator_mono_step op s) (ih ((step op s).2))

/-! ## Claim theorems -/

/-- Claim C1: for every draft (a body without an `id` field), create assigns
the current generator value as the new Todo's id, increments the generator
by one, appends the resulting Todo at the end of the collection, and returns
it with status 200 — there is no error branch. -/
theorem create_draft_spec (s : Store) (b : TodoBody) (h : b.id = none) :
    postHandler b s =
      ({ status := 200,
         body := RespBody.jsonTodo
           { id := JsId.num s.idGenerator, title := b.title, description := b.description } },
       { idGenerator := s.idGenerator + 1,
         todos := s.todos ++
           [{ id := JsId.num s.idGenerator, title := b.title, description := b.description }] }) := by
  simp [postHandler, newId, h]

/-- Witness for C1: POSTing `{"title":"Learn Rust"}` to the seeded store
creates id 5 and leaves the generator at 6. -/
theorem create_draft_spec_witness :
    postHandler draftRust initialStore =
      ({ status := 200,
         body := RespBody.jsonTodo
           { id := JsId.num 5, title := some "Learn Rust", description := none } },
       { idGenerator := 6,
         todos := initialStore.todos ++
           [{ id := JsId.num 5, title := some "Learn Rust", description := none }] }) :=
  create_draft_spec initialStore draftRust rfl

/-- Claim C2: a create whose body itself carries an `id` field returns the
caller-supplied id instead of the freshly generated one, while the generator
still increments; concretely, one POST reusing the existing id 1 leaves the
store with two todos whose id is 1, breaking id-uniqueness. -/
theorem create_with_body_id_duplicates :
    (postHandler dupBody initialStore).1 =
      { status := 200,
        body := RespBody.jsonTodo
          { id := JsId.num 1, title := some "duplicate", description := none } } ∧
    dupStore.idGenerator = 6 ∧
    dupStore.todos.countP (fun t => jsEq t.id (JsId.num 1)) = 2 :=
  ⟨rfl, rfl, rfl⟩

/-- Claim C8: from the seeded state (4 todos with ids 1–4), DELETE of id 2
returns 200 with the todo `{id: 2, title: "Learn Angular"}`; a subsequent
GET of id 2 returns 404 with body `Todo entity not found by id: 2`; and a
subsequent GET of the list returns the 3 remaining todos with ids 1, 3, 4 in
that order. -/
theorem seeded_delete_scenario :
    initialStore.todos.map Todo.id = [JsId.num 1, JsId.num 2, JsId.num 3, JsId.num 4] ∧
    (deleteHandler (JsId.num 2) initialStore).1 =
      { status := 200,
        body := RespBody.jsonTodo
          { id := JsId.num 2, title := some "Learn Angular", description := none } } ∧
    (getHandler (JsId.num 2) ((deleteHandler (JsId.num 2) initialStore).2)).1 =
      { status := 404, body := RespBody.text "Todo entity not found by id: 2" } ∧
    (listHandler ((deleteHandler (JsId.num 2) initialStore).2)).1 =
      { status := 200,
        body := RespBody.jsonList
          [ { id := JsId.num 1, title := some "Learn TypeScript", description := none },
            { id := JsId.num 3, title := some "Learn NodeJs", description := none },
            { id := JsId.num 4, title := some "Learn Express", description := none } ] } :=
  ⟨rfl, rfl, rfl, rfl⟩

/-- Claim C9: when the path parameter does not parse as a number, so the
handler receives `NaN`, the get and delete handlers answer 404 with body
`Todo entity not found by id: NaN` and leave the store unchanged, because
`NaN` compares equal to no stored id. -/
theorem nan_param_not_found (s : Store) :
    getHandler JsId.nan s =
      ({ status := 404, body := RespBody.text "Todo entity not found by id: NaN" }, s) ∧
    deleteHandler JsId.nan s =
      ({ status := 404, body := RespBody.text "Todo entity not found by id: NaN" }, s) := by
  have hmsg : notFoundMsg JsId.nan = "Todo entity not found by id: NaN" := rfl
  have hfind : s.todos.find? (fun todo => jsEq todo.id JsId.nan) = none :=
    List.find?_eq_none.mpr (fun x _ => by simp [jsEq_nan_right])
  have hidx : s.todos.findIdx? (fun todo => jsEq todo.id JsId.nan) = none :=
    List.findIdx?_eq_none_iff.mpr (fun x _ => jsEq_nan_right x.id)
  constructor
  · rw [getHandler, hfind, hmsg]
  · rw [deleteHandler, hidx, hmsg]

/-- Claim C10: an update whose body lacks an `id` field, against a store all
of whose stored ids are numeric, answers 404 with body
`Todo entity not found by id: undefined` and leaves the store unchanged,
because the scan compares numeric ids against `undefined`. -/
theorem update_without_id_not_found (s : Store) (item : TodoBody)
    (hid : item.id = none)
    (hnum : ∀ t ∈ s.todos, isNum t.id = true) :
    putHandler item s =
      ({ status := 404, body := RespBody.text "Todo entity not found by id: undefined" }, s) := by
  have hb : bodyId item = JsId.undef := by simp [bodyId, hid]
  have hmsg : notFoundMsg (bodyId item) = "Todo entity not found by id: undefined" := by
    rw [hb]
    rfl
  have hidx : s.todos.findIdx? (fun todo => jsEq todo.id (bodyId item)) = none := by
    rw [hb]
    exact List.findIdx?_eq_none_iff.mpr (fun t ht => jsEq_undef_right_of_isNum t.id (hnum t ht))
  rw [putHandler, hidx, hmsg]

/-- Witness for C10: an id-less update body against the seeded store. -/
theorem update_without_id_not_found_witness :
    putHandler draftNoId initialStore =
      ({ status := 404, body := RespBody.text "Todo entity not found by id: undefined" },
       initialStore) :=
  update_without_id_not_found initialStore draftNoId rfl (by decide)

/-- Claim C3: when a stored Todo matches the update body's id, update
replaces exactly that record, in place, by the shallow merge of the body
over it (body fields overwrite, absent fields keep their prior values) and
returns the merged Todo with status 200; when no stored Todo matches, it
answers 404 and the store is completely unchanged. -/
theorem update_spec (s : Store) (item : TodoBody) :
    (∀ idx, s.todos.findIdx? (fun todo => jsEq todo.id (bodyId item)) = some idx →
      putHandler item s =
        ({ status := 200,
           body := RespBody.jsonTodo (mergeTodo (s.todos.getD idx default) item) },
         { s with todos := s.todos.set idx (mergeTodo (s.todos.getD idx default) item) })) ∧
    (s.todos.findIdx? (fun todo => jsEq todo.id (bodyId item)) = none →
      putHandler item s =
        ({ status := 404, body := RespBody.text (notFoundMsg (bodyId item)) }, s)) := by
  constructor
  · intro idx h
    rw [putHandler, h]
  · intro h
    rw [putHandler, h]

/-- Witness for C3: updating the stored id 2 merges the new title in place;
updating the absent id 99 answers 404 and changes nothing. -/
theorem update_spec_witness :
    putHandler itemUpd initialStore =
      ({ status := 200,
         body := RespBody.jsonTodo
           { id := JsId.num 2, title := some "Learn Vue", description := none } },
       { idGenerator := 5,
         todos :=
           [ { id := JsId.num 1, title := some "Learn TypeScript", description := none },
             { id := JsId.num 2, title := some "Learn Vue", description := none },
             { id := JsId.num 3, title := some "Learn NodeJs", description := none },
             { id := JsId.num 4, title := some "Learn Express", description := none } ] }) ∧
    putHandler itemMissing initialStore =
      ({ status := 404, body := RespBody.text "Todo entity not found by id: 99" },
       initialStore) :=
  ⟨(update_spec initialStore itemUpd).1 1 rfl, (update_spec initialStore itemMissing).2 rfl⟩

/-- Claim C4: when a stored Todo matches the id, delete removes exactly that
record (the one at the found index, which does match the id) and returns it
with status 200; when no stored Todo matches, it answers 404 and the store
is unchanged — the operation fully succeeds or causes no observable
change. -/
theorem delete_spec (s : Store) (id : JsId) :
    (∀ idx, s.todos.findIdx? (fun todo => jsEq todo.id id) = some idx →
      jsEq (s.todos.getD idx default).id id = true ∧
      deleteHandler id s =
        ({ status := 200, body := RespBody.jsonTodo (s.todos.getD idx default) },
         { s with todos := s.todos.eraseIdx idx })) ∧
    (s.todos.findIdx? (fun todo => jsEq todo.id id) = none →
      deleteHandler id s = ({ status := 404, body := RespBody.text (notFoundMsg id) }, s)) := by
  constructor
  · intro idx h
    refine ⟨findIdx?_getD h, ?_⟩
    rw [deleteHandler, h]
  · intro h
    rw [deleteHandler, h]

/-- Witness for C4: deleting the stored id 3 removes exactly that todo;
deleting the absent id 99 answers 404 and changes nothing. -/
theorem delete_spec_witness :
    (jsEq (JsId.num 3) (JsId.num 3) = true ∧
     deleteHandler (JsId.num 3) initialStore =
       ({ status := 200,
          body := RespBody.jsonTodo
            { id := JsId.num 3, title := some "Learn NodeJs", description := none } },
        { idGenerator := 5,
          todos :=
            [ { id := JsId.num 1, title := some "Learn TypeScript", description := none },
              { id := JsId.num 2, title := some "Learn Angular", description := none },
              { id := JsId.num 4, title := some "Learn Express", description := none } ] })) ∧
    deleteHandler (JsId.num 99) initialStore =
      ({ status := 404, body := RespBody.text "Todo entity not found by id: 99" },
       initialStore) :=
  ⟨(delete_spec initialStore (JsId.num 3)).1 2 rfl, (delete_spec initialStore (JsId.num 99)).2 rfl⟩

/-- Claim C5: along any sequence of operations, create on a draft returns
the current generator value as the id, and any later create on a draft —
after arbitrary intervening operations, deletions included — returns a
strictly larger id, because the generator only ever increments; assigned ids
are therefore never reused. -/
theorem create_ids_strictly_increase (s : Store) (ops : List Op) (b1 b2 : TodoBody)
    (h1 : b1.id = none) (h2 : b2.id = none) :
    (postHandler b1 s).1.body =
      RespBody.jsonTodo
        { id := JsId.num s.idGenerator, title := b1.title, description := b1.description } ∧
    (postHandler b2 (runOps ops ((postHandler b1 s).2))).1.body =
      RespBody.jsonTodo
        { id := JsId.num (runOps ops ((postHandler b1 s).2)).idGenerator,
          title := b2.title, description := b2.description } ∧
    s.idGenerator < (runOps ops ((postHandler b1 s).2)).idGenerator := by
  refine ⟨?_, ?_, ?_⟩
  · simp [postHandler, newId, h1]
  · simp [postHandler, newId, h2]
  · have hmono := generator_mono_run ops ((postHandler b1 s).2)
    have hstep : ((postHandler b1 s).2).idGenerator = s.idGenerator + 1 := rfl
    omega

/-- Witness for C5: create draft A (gets id 5), delete it, create draft B —
B still gets the strictly larger id 6; id 5 is never reused. -/
theorem create_ids_strictly_increase_witness :
    (postHandler draftA initialStore).1.body =
      RespBody.jsonTodo { id := JsId.num 5, title := some "A", description := none } ∧
    (postHandler draftB
        (runOps [Op.deleteById (JsId.num 5)] ((postHandler draftA initialStore).2))).1.body =
      RespBody.jsonTodo { id := JsId.num 6, title := some "B", description := none } ∧
    (5 : Int) < 6 :=
  create_ids_strictly_increase initialStore [Op.deleteById (JsId.num 5)] draftA draftB rfl rfl

/-- Claim C6: whenever the get, update, or delete handler signals NotFound,
it answers status 404 whose body is exactly the text
`Todo entity not found by id: ` followed by the rendering of the requested
id, returning normally with the store unchanged — the condition is settled
by a local found/not-found check and propagates no further. -/
theorem notfound_responses (s : Store) (id : JsId) (item : TodoBody) :
    (s.todos.find? (fun todo => jsEq todo.id id) = none →
      getHandler id s =
        ({ status := 404,
           body := RespBody.text ("Todo entity not found by id: " ++ jsIdToString id) }, s)) ∧
    (s.todos.findIdx? (fun todo => jsEq todo.id (bodyId item)) = none →
      putHandler item s =
        ({ status := 404,
           body := RespBody.text ("Todo entity not found by id: " ++ jsIdToString (bodyId item)) },
         s)) ∧
    (s.todos.findIdx? (fun todo => jsEq todo.id id) = none →
      deleteHandler id s =
        ({ status := 404,
           body := RespBody.text ("Todo entity not found by id: " ++ jsIdToString id) }, s)) := by
  refine ⟨?_, ?_, ?_⟩
  · intro h
    rw [getHandler, h]
    rfl
  · intro h
    rw [putHandler, h]
    rfl
  · intro h
    rw [deleteHandler, h]
    rfl

/-- Witness for C6: id 42 (and an update body carrying id 42) is absent from
the seeded store; all three handlers answer the exact 404 text. -/
theorem notfound_responses_witness :
    getHandler (JsId.num 42) initialStore =
      ({ status := 404, body := RespBody.text "Todo entity not found by id: 42" },
       initialStore) ∧
    putHandler item42 initialStore =
      ({ status := 404, body := RespBody.text "Todo entity not found by id: 42" },
       initialStore) ∧
    deleteHandler (JsId.num 42) initialStore =
      ({ status := 404, body := RespBody.text "Todo entity not found by id: 42" },
       initialStore) :=
  ⟨(notfound_responses initialStore (JsId.num 42) item42).1 rfl,
   (notfound_responses initialStore (JsId.num 42) item42).2.1 rfl,
   (notfound_responses initialStore (JsId.num 42) item42).2.2 rfl⟩

/-- Claim C7 as stated is false on a reachable state: after POSTing a body
that reuses the stored id 1 (reaching `dupStore`, which holds two todos with
id 1), DELETE of id 1 succeeds with 200, yet the immediately following GET
of id 1 still answers 200 — not NotFound. -/
theorem delete_then_get_counterexample :
    ((deleteHandler (JsId.num 1) dupStore).1).status = 200 ∧
    ((getHandler (JsId.num 1) ((deleteHandler (JsId.num 1) dupStore).2)).1).status = 200 :=
  ⟨rfl, rfl⟩

/-- Claim C7 amended: in every state where at most one stored Todo matches
the id — in particular whenever stored ids are unique — after a successful
delete of that id, an immediate get of the same id answers 404 NotFound. -/
theorem delete_then_get_not_found (s : Store) (id : JsId)
    (hdup : s.todos.countP (fun todo => jsEq todo.id id) ≤ 1)
    (hsucc : ((deleteHandler id s).1).status = 200) :
    (getHandler id ((deleteHandler id s).2)).1 =
      { status := 404, body := RespBody.text (notFoundMsg id) } := by
  cases h : s.todos.findIdx? (fun todo => jsEq todo.id id) with
  | none =>
      rw [deleteHandler, h] at hsucc
      simp at hsucc
  | some idx =>
      have hnone : (s.todos.eraseIdx idx).find? (fun todo => jsEq todo.id id) = none :=
        find_eraseIdx_none _ s.todos idx h hdup
      have hstate : (deleteHandler id s).2 = { s with todos := s.todos.eraseIdx idx } := by
        rw [deleteHandler, h]
      rw [hstate, getHandler]
      simp only [hnone]

/-- Witness for the amended C7: the seeded store has exactly one todo with
id 2; deleting it succeeds and the following get answers 404. -/
theorem delete_then_get_not_found_witness :
    (getHandler (JsId.num 2) ((deleteHandler (JsId.num 2) initialStore).2)).1 =
      { status := 404, body := RespBody.text "Todo entity not found by id: 2" } :=
  delete_then_get_not_found initialStore (JsId.num 2) (by decide) rfl

end TodoApp
